import Mathlib

/-!
Shallow embedding of the scan-acquisition-and-analysis pipeline of the
planty-diagnose-app repository.

The embedded code:
* `handleAnalyze` — the upload-page pipeline (src/unnamed/part_000, lines 56-104):
  upload the selected file to object storage at `user.id/Date.now().ext`,
  resolve the public URL, invoke the remote analysis function, insert a row
  into the `plant_scans` record store; any stage error is thrown and caught by
  a single catch block that shows `error.message || "Failed to analyze image"`;
  a `finally` block resets the `analyzing` flag.
* `analyzeImage` — the camera-page pipeline (src/src/pages/History.tsx,
  lines 278-328): identical, except the image is the captured data URL and the
  storage path always uses the `jpg` extension.
* `deleteScan` — the history-page deletion (src/src/pages/History.tsx, lines
  65-88): extract the path after the bucket segment from the image URL, remove
  it from storage (result ignored), then delete the record row; a database
  error aborts with the record kept.
* the camera lifecycle of the Scan component (startCamera / stopCamera /
  captureImage / unmount cleanup effect), modelled as a step function over an
  explicit state, with the React `[stream]` effect-cleanup semantics (changing
  the held stream stops the tracks of the previously held one) made explicit.

Remote collaborators (object storage, the analyze-plant edge function, the
record store) are modelled by an environment giving each stage's outcome, and
by explicit state lists for stored object paths and inserted records.
Confidence scores (JS numbers) are modelled as rationals.
-/

/-- A JavaScript error value as observed by the catch blocks: only its
`message` property is consulted, and it may be absent or empty (falsy). -/
structure JsError where
  message : Option String
deriving DecidableEq, Repr

/-- The untrusted response of the `analyze-plant` edge function: every field
optional, per the source reading `analysisData.disease` etc. directly. -/
structure AnalysisData where
  disease : Option String
  diagnosis : Option String
  recommendations : Option String
  confidence : Option Rat
deriving DecidableEq, Repr

/-- A user-selected file; only its `name` is consulted by the pipeline. -/
structure PlantFile where
  name : String
deriving DecidableEq, Repr

/-- The row inserted into the `plant_scans` record store (part_000 lines
85-92). -/
structure ScanRecord where
  user_id : String
  image_url : String
  disease_detected : Option String
  diagnosis : Option String
  recommendations : Option String
  confidence_score : Option Rat
deriving DecidableEq, Repr

/-- The observable state of the remote collaborators: the paths stored in the
`plant-images` bucket and the rows of the `plant_scans` record store. -/
structure RemoteState where
  storage : List String
  records : List ScanRecord
deriving DecidableEq, Repr

/-- One `analyze` call's environment: the outcome each remote stage would
produce if reached (upload, edge-function invocation, record insert). -/
structure AnalyzeEnv where
  uploadError : Option JsError
  analysis : Except JsError AnalysisData
  insertError : Option JsError
deriving Repr

/-- Models the external storage collaborator's public-URL resolution
(`supabase.storage.from('plant-images').getPublicUrl`): the bucket's public
base address followed by the object path. -/
def publicUrlBase : String := "https://proj.supabase.co/storage/v1/object/public/plant-images/"

/-- Resolved public URL of a stored object path. -/
def getPublicUrl (path : String) : String := publicUrlBase ++ path

/-- The fallback toast text of the shared catch block. -/
def fallbackMsg : String := "Failed to analyze image"

/-- The toast text of the catch block: `error.message || "Failed to analyze
image"` — the message when truthy (present and non-empty), else the fallback. -/
def errToastMsg (e : JsError) : String :=
  match e.message with
  | some m => if m = "" then fallbackMsg else m
  | none => fallbackMsg

/-- What an `analyze` invocation does observably at its end: the silent early
return (missing file or user), the success path (`setResult` and a success
toast), or the catch block's error toast. -/
inductive AnalyzeOutcome where
  | noop
  | success (res : AnalysisData)
  | failure (msg : String)
deriving DecidableEq, Repr

/-- The full observable result of one `analyze` invocation: the outcome, the
final remote state, the final value of the `analyzing` flag, and how many
upload / edge-function / insert operations were issued. -/
structure AnalyzeRun where
  outcome : AnalyzeOutcome
  state : RemoteState
  analyzing : Bool
  uploads : Nat
  invokes : Nat
  inserts : Nat
deriving DecidableEq, Repr

/-- Splitting helper over character lists, by fuel (the fuel is always ample:
each step either consumes at least one character or terminates). -/
def jsSplitAux (sep : List Char) : Nat → List Char → List Char → List (List Char)
  | 0, _, acc => [acc.reverse]
  | fuel+1, s, acc =>
    if sep.isPrefixOf s ∧ sep ≠ [] then
      acc.reverse :: jsSplitAux sep fuel (s.drop sep.length) []
    else
      match s with
      | [] => [acc.reverse]
      | c :: rest => jsSplitAux sep fuel rest (c :: acc)

/-- JS `s.split(sep)` for a non-empty separator: the (always non-empty) list
of the maximal separator-free segments of `s`, in order. -/
def jsSplit (s sep : String) : List String :=
  (jsSplitAux sep.data (s.data.length + 1) s.data []).map String.mk

/-- `selectedFile.name.split('.').pop()` — the last dot-separated segment of
the file name (JS `split` always yields a non-empty array). -/
def fileExtOf (name : String) : String := (jsSplit name ".").getLastD ""

/-- The upload-page pipeline `handleAnalyze` (src/unnamed/part_000 lines
56-104). Early return when file or user is missing; otherwise
`setAnalyzing(true)`, upload at `user.id/now.ext`, resolve the public URL,
invoke the analysis function, insert the record; the first error jumps to the
catch block; the finally block makes the final `analyzing` flag false. -/
def handleAnalyze (selectedFile : Option PlantFile) (user : Option String)
    (now : Nat) (env : AnalyzeEnv) (st : RemoteState) (analyzing0 : Bool) :
    AnalyzeRun :=
  match selectedFile, user with
  | some file, some uid =>
    let fileName := uid ++ "/" ++ toString now ++ "." ++ fileExtOf file.name
    match env.uploadError with
    | some e =>
      { outcome := .failure (errToastMsg e), state := st, analyzing := false,
        uploads := 1, invokes := 0, inserts := 0 }
    | none =>
      let st1 : RemoteState := { st with storage := st.storage ++ [fileName] }
      match env.analysis with
      | .error e =>
        { outcome := .failure (errToastMsg e), state := st1, analyzing := false,
          uploads := 1, invokes := 1, inserts := 0 }
      | .ok ad =>
        let row : ScanRecord :=
          { user_id := uid, image_url := getPublicUrl fileName,
            disease_detected := ad.disease, diagnosis := ad.diagnosis,
            recommendations := ad.recommendations,
            confidence_score := ad.confidence }
        match env.insertError with
        | some e =>
          { outcome := .failure (errToastMsg e), state := st1,
            analyzing := false, uploads := 1, invokes := 1, inserts := 1 }
        | none =>
          { outcome := .success ad,
            state := { st1 with records := st1.records ++ [row] },
            analyzing := false, uploads := 1, invokes := 1, inserts := 1 }
  | _, _ =>
    { outcome := .noop, state := st, analyzing := analyzing0,
      uploads := 0, invokes := 0, inserts := 0 }

/-- The camera-page pipeline `analyzeImage` (src/src/pages/History.tsx lines
278-328): identical to `handleAnalyze` except the input is the captured data
URL and the storage path always uses the fixed `jpg` extension. -/
def analyzeImage (capturedImage : Option String) (user : Option String)
    (now : Nat) (env : AnalyzeEnv) (st : RemoteState) (analyzing0 : Bool) :
    AnalyzeRun :=
  match capturedImage, user with
  | some _, some uid =>
    let fileName := uid ++ "/" ++ toString now ++ ".jpg"
    match env.uploadError with
    | some e =>
      { outcome := .failure (errToastMsg e), state := st, analyzing := false,
        uploads := 1, invokes := 0, inserts := 0 }
    | none =>
      let st1 : RemoteState := { st with storage := st.storage ++ [fileName] }
      match env.analysis with
      | .error e =>
        { outcome := .failure (errToastMsg e), state := st1, analyzing := false,
          uploads := 1, invokes := 1, inserts := 0 }
      | .ok ad =>
        let row : ScanRecord :=
          { user_id := uid, image_url := getPublicUrl fileName,
            disease_detected := ad.disease, diagnosis := ad.diagnosis,
            recommendations := ad.recommendations,
            confidence_score := ad.confidence }
        match env.insertError with
        | some e =>
          { outcome := .failure (errToastMsg e), state := st1,
            analyzing := false, uploads := 1, invokes := 1, inserts := 1 }
        | none =>
          { outcome := .success ad,
            state := { st1 with records := st1.records ++ [row] },
            analyzing := false, uploads := 1, invokes := 1, inserts := 1 }
  | _, _ =>
    { outcome := .noop, state := st, analyzing := analyzing0,
      uploads := 0, invokes := 0, inserts := 0 }

/-- Whether the analysis stage of an environment succeeds. -/
def analysisOk (env : AnalyzeEnv) : Bool :=
  match env.analysis with
  | .ok _ => true
  | .error _ => false

/-- Floor of a rational, via floor division of numerator by (positive)
denominator. -/
def ratFloor (q : Rat) : Int := q.num.fdiv q.den

/-- JS `Math.round`: round half toward positive infinity. -/
def jsRound (q : Rat) : Int := ratFloor (q + 1/2)

/-- The confidence rendering shared by the result panels and the history page:
`{c && <p>Math.round(c * 100)%</p>}` — rendered only when the value is truthy
(present and non-zero), with no range validation or clamping. -/
def renderedConfidencePercent (c : Option Rat) : Option Int :=
  match c with
  | some v => if v = 0 then none else some (jsRound (v * 100))
  | none => none

/-- A row of the history page's scan list, as consumed by `deleteScan`: only
its id and image URL matter there. -/
structure ScanRow where
  id : String
  image_url : String
deriving DecidableEq, Repr

/-- One `deleteScan` call's environment: the outcomes of the storage removal
and of the database delete. -/
structure DeleteEnv where
  removeError : Option JsError
  dbError : Option JsError
deriving Repr

/-- The observable result of one `deleteScan` invocation: the storage paths
and record rows afterwards, whether the call reached its success toast, and
how many storage remove operations were issued. -/
structure DeleteRun where
  storage : List String
  rows : List ScanRow
  success : Bool
  removes : Nat
deriving DecidableEq, Repr

/-- The history-page `deleteScan` (src/src/pages/History.tsx lines 65-88):
`filePath = imageUrl.split('/plant-images/')[1]`; when truthy, the storage
removal is awaited with its error ignored; then the database delete runs, and
its error aborts the call with the rows kept (JS `[1]` of a one-element split
is undefined, which like the empty string is falsy and skips the removal). -/
def deleteScan (scanId imageUrl : String) (env : DeleteEnv)
    (storage : List String) (rows : List ScanRow) : DeleteRun :=
  let filePath := ((jsSplit imageUrl "/plant-images/")[1]?).getD ""
  let storage1 :=
    if filePath ≠ "" then
      if env.removeError = none then storage.filter (fun p => p ≠ filePath)
      else storage
    else storage
  let removes := if filePath ≠ "" then 1 else 0
  match env.dbError with
  | some _ => { storage := storage1, rows := rows, success := false, removes := removes }
  | none =>
    { storage := storage1, rows := rows.filter (fun r => r.id ≠ scanId),
      success := true, removes := removes }

/-- Events of the Scan component's camera lifecycle: `startCamera` (with the
device acquisition succeeding or failing), `stopCamera` (the Cancel button),
`captureImage`, the retake button, and component teardown. -/
inductive CamEvent where
  | start (deviceOk : Bool)
  | stop
  | capture
  | retake
  | unmount
deriving DecidableEq, Repr

/-- The Scan component's camera-related state. Acquired device streams are
numbered by acquisition order; `stream` holds the id in the `stream` React
state, `stopped` the ids of streams whose tracks have been stopped (a
`MediaStreamTrack.stop` on an already ended track is a no-op per the platform
API, so an id enters `stopped` at most once and membership in `stopped` is the
observable "the stream's active flag is false"). -/
structure CamState where
  stream : Option Nat
  capturing : Bool
  capturedImage : Bool
  acquired : Nat
  stopped : List Nat
  mounted : Bool
deriving DecidableEq, Repr

/-- State of a freshly mounted Scan component. -/
def camInit : CamState :=
  { stream := none, capturing := false, capturedImage := false,
    acquired := 0, stopped := [], mounted := true }

/-- Record that a stream's tracks have been stopped; idempotent, matching the
platform behaviour of stopping already ended tracks. -/
def markStopped (l : List Nat) (id : Nat) : List Nat :=
  if id ∈ l then l else id :: l

/-- `stream.getTracks().forEach(track => track.stop())` on stream `id`. -/
def stopTracks (s : CamState) (id : Nat) : CamState :=
  { s with stopped := markStopped s.stopped id }

/-- `setStream(v)`: the `[stream]` effect of the component (History.tsx lines
231-237) re-runs when the stream state changes, and its cleanup — which closed
over the previously held stream — stops that stream's tracks. -/
def setStream (s : CamState) (v : Option Nat) : CamState :=
  match s.stream with
  | some old =>
    if v = some old then { s with stream := v }
    else { stopTracks s old with stream := v }
  | none => { s with stream := v }

/-- `startCamera` (History.tsx lines 239-252): acquire a device stream via
`getUserMedia` — unconditionally, with no guard on the `capturing` state —
then `setStream` and `setCapturing(true)`; on device failure only an error
toast, no state change. -/
def startCamera (s : CamState) (deviceOk : Bool) : CamState :=
  if deviceOk then
    let id := s.acquired
    let s1 : CamState := { s with acquired := s.acquired + 1 }
    let s2 := setStream s1 (some id)
    { s2 with capturing := true }
  else s

/-- `stopCamera` (History.tsx lines 254-260): if a stream is held, stop its
tracks and `setStream(null)`; then `setCapturing(false)`. -/
def stopCamera (s : CamState) : CamState :=
  let s1 :=
    match s.stream with
    | some id => setStream (stopTracks s id) none
    | none => s
  { s1 with capturing := false }

/-- `captureImage` (History.tsx lines 262-276): the video element is rendered
only while `capturing`, so with no live video ref the function returns
immediately; otherwise it snapshots a frame, sets the captured image and calls
`stopCamera`. -/
def captureImage (s : CamState) : CamState :=
  if s.capturing then stopCamera { s with capturedImage := true } else s

/-- The Retake button: discards the captured image. -/
def retakeImage (s : CamState) : CamState := { s with capturedImage := false }

/-- Component teardown: the `[stream]` effect's cleanup stops the held
stream's tracks. -/
def unmountCam (s : CamState) : CamState :=
  let s1 :=
    match s.stream with
    | some id => stopTracks s id
    | none => s
  { s1 with mounted := false }

/-- One step of the camera lifecycle; events on an unmounted component do
nothing. -/
def camStep (s : CamState) (e : CamEvent) : CamState :=
  if s.mounted then
    match e with
    | .start ok => startCamera s ok
    | .stop => stopCamera s
    | .capture => captureImage s
    | .retake => retakeImage s
    | .unmount => unmountCam s
  else s

/-- The state after a sequence of camera events from a fresh mount. -/
def camRun (tr : List CamEvent) : CamState := tr.foldl camStep camInit

/-- At most one acquired stream is still unreleased. -/
def AtMostOneActive (s : CamState) : Prop :=
  ∀ j k, j < s.acquired → k < s.acquired →
    j ∉ s.stopped → k ∉ s.stopped → j = k

/-- Every acquired stream has been released. -/
def AllReleased (s : CamState) : Prop :=
  ∀ j, j < s.acquired → j ∈ s.stopped

/-- The inductive invariant of the camera lifecycle: an unreleased acquired
stream is exactly the held one; the held stream and all released ids are
among the acquired ones; while capturing on a mounted component the held
stream is live; released ids are recorded without duplicates. -/
def CamInv (s : CamState) : Prop :=
  (∀ j, j < s.acquired → j ∉ s.stopped → s.stream = some j) ∧
  (∀ i, s.stream = some i → i < s.acquired) ∧
  (∀ j, j ∈ s.stopped → j < s.acquired) ∧
  (s.capturing = true → s.mounted = true →
    ∃ i, s.stream = some i ∧ i ∉ s.stopped) ∧
  s.stopped.Nodup

theorem mem_markStopped {l : List Nat} {id j : Nat} :
    j ∈ markStopped l id ↔ j = id ∨ j ∈ l := by
  by_cases hm : id ∈ l
  · simp only [markStopped, if_pos hm]
    constructor
    · exact Or.inr
    · rintro (rfl | hj)
      · exact hm
      · exact hj
  · simp [markStopped, hm]

theorem nodup_markStopped {l : List Nat} {id : Nat} (h : l.Nodup) :
    (markStopped l id).Nodup := by
  by_cases hm : id ∈ l
  · simpa [markStopped, hm] using h
  · simp [markStopped, hm, List.nodup_cons, h]

theorem count_markStopped_self {l : List Nat} {id : Nat} (h : id ∉ l) :
    (markStopped l id).count id = 1 := by
  unfold markStopped
  rw [if_neg h, List.count_cons_self, List.count_eq_zero.mpr h]

theorem markStopped_idem (l : List Nat) (id : Nat) :
    markStopped (markStopped l id) id = markStopped l id := by
  by_cases hm : id ∈ l
  · simp [markStopped, hm]
  · simp [markStopped, hm]

theorem stopCamera_eq_none {s : CamState} (h : s.stream = none) :
    stopCamera s = { s with capturing := false } := by
  simp [stopCamera, h]

theorem stopCamera_eq_some {s : CamState} {id : Nat} (h : s.stream = some id) :
    stopCamera s
      = { s with stream := none, capturing := false,
                 stopped := markStopped s.stopped id } := by
  simp [stopCamera, h, stopTracks, setStream, markStopped_idem]

theorem startCamera_true_none {s : CamState} (h : s.stream = none) :
    startCamera s true
      = { s with acquired := s.acquired + 1, stream := some s.acquired,
                 capturing := true } := by
  simp [startCamera, setStream, h]

theorem startCamera_true_some {s : CamState} {old : Nat} (h : s.stream = some old)
    (hne : s.acquired ≠ old) :
    startCamera s true
      = { s with acquired := s.acquired + 1, stream := some s.acquired,
                 capturing := true, stopped := markStopped s.stopped old } := by
  simp [startCamera, setStream, stopTracks, h, hne]

theorem camInv_startCamera {s : CamState} (h : CamInv s) (ok : Bool) :
    CamInv (startCamera s ok) := by
  obtain ⟨h1, h2, h3, h4, h5⟩ := h
  cases ok with
  | false => exact ⟨h1, h2, h3, h4, h5⟩
  | true =>
    cases hs : s.stream with
    | none =>
      rw [startCamera_true_none hs]
      refine ⟨?_, ?_, ?_, ?_, h5⟩
      · intro j hj hjn
        rcases Nat.lt_succ_iff_lt_or_eq.mp hj with hlt | rfl
        · have hX := h1 j hlt hjn
          rw [hs] at hX
          simp at hX
        · rfl
      · intro i hi
        cases hi
        exact Nat.lt_succ_self _
      · intro j hj
        exact Nat.lt_succ_of_lt (h3 j hj)
      · intro _ _
        exact ⟨s.acquired, rfl, fun hmem => absurd (h3 _ hmem) (lt_irrefl _)⟩
    | some old =>
      have hold : old < s.acquired := h2 old hs
      have hne : s.acquired ≠ old := by omega
      rw [startCamera_true_some hs hne]
      refine ⟨?_, ?_, ?_, ?_, nodup_markStopped h5⟩
      · intro j hj hjn
        have hj1 : j ≠ old ∧ j ∉ s.stopped :=
          ⟨fun e => hjn (mem_markStopped.mpr (Or.inl e)),
           fun e => hjn (mem_markStopped.mpr (Or.inr e))⟩
        rcases Nat.lt_succ_iff_lt_or_eq.mp hj with hlt | rfl
        · have hX := h1 j hlt hj1.2
          rw [hs] at hX
          injection hX with hX
          exact absurd hX.symm hj1.1
        · rfl
      · intro i hi
        cases hi
        exact Nat.lt_succ_self _
      · intro j hj
        rcases mem_markStopped.mp hj with rfl | hj2
        · exact Nat.lt_succ_of_lt hold
        · exact Nat.lt_succ_of_lt (h3 j hj2)
      · intro _ _
        refine ⟨s.acquired, rfl, fun hmem => ?_⟩
        rcases mem_markStopped.mp hmem with e | hmem2
        · exact hne e
        · exact absurd (h3 _ hmem2) (lt_irrefl _)

theorem camInv_stopCamera {s : CamState} (h : CamInv s) : CamInv (stopCamera s) := by
  obtain ⟨h1, h2, h3, h4, h5⟩ := h
  cases hs : s.stream with
  | none =>
    rw [stopCamera_eq_none hs]
    exact ⟨h1, h2, h3, fun hc => absurd hc Bool.false_ne_true, h5⟩
  | some id =>
    rw [stopCamera_eq_some hs]
    refine ⟨?_, ?_, ?_, fun hc => absurd hc Bool.false_ne_true,
      nodup_markStopped h5⟩
    · intro j hj hjn
      have hj1 : j ≠ id ∧ j ∉ s.stopped :=
        ⟨fun e => hjn (mem_markStopped.mpr (Or.inl e)),
         fun e => hjn (mem_markStopped.mpr (Or.inr e))⟩
      have hX := h1 j hj hj1.2
      rw [hs] at hX
      injection hX with hX
      exact absurd hX.symm hj1.1
    · intro i hi
      simp at hi
    · intro j hj
      rcases mem_markStopped.mp hj with rfl | hj2
      · exact h2 _ hs
      · exact h3 j hj2

theorem camInv_captureImage {s : CamState} (h : CamInv s) :
    CamInv (captureImage s) := by
  by_cases hc : s.capturing = true
  · have h2 : CamInv (stopCamera { s with capturedImage := true }) :=
      camInv_stopCamera h
    simpa [captureImage, hc] using h2
  · simpa [captureImage, hc] using h

theorem camInv_retakeImage {s : CamState} (h : CamInv s) :
    CamInv (retakeImage s) := h

theorem camInv_unmountCam {s : CamState} (h : CamInv s) :
    CamInv (unmountCam s) := by
  obtain ⟨h1, h2, h3, h4, h5⟩ := h
  cases hs : s.stream with
  | none =>
    have he : unmountCam s = { s with mounted := false } := by
      simp [unmountCam, hs]
    rw [he]
    exact ⟨h1, h2, h3, fun _ hm => absurd hm Bool.false_ne_true, h5⟩
  | some id =>
    have he : unmountCam s
        = { s with stopped := markStopped s.stopped id, mounted := false } := by
      simp [unmountCam, stopTracks, hs]
    rw [he]
    refine ⟨?_, h2, ?_, fun _ hm => absurd hm Bool.false_ne_true,
      nodup_markStopped h5⟩
    · intro j hj hjn
      have hj1 : j ≠ id ∧ j ∉ s.stopped :=
        ⟨fun e => hjn (mem_markStopped.mpr (Or.inl e)),
         fun e => hjn (mem_markStopped.mpr (Or.inr e))⟩
      have hX := h1 j hj hj1.2
      rw [hs] at hX
      injection hX with hX
      exact absurd hX.symm hj1.1
    · intro j hj
      rcases mem_markStopped.mp hj with rfl | hj2
      · exact h2 _ hs
      · exact h3 j hj2

theorem camInv_camStep {s : CamState} (h : CamInv s) (e : CamEvent) :
    CamInv (camStep s e) := by
  by_cases hm : s.mounted = true
  · cases e with
    | start ok => simpa [camStep, hm] using camInv_startCamera h ok
    | stop => simpa [camStep, hm] using camInv_stopCamera h
    | capture => simpa [camStep, hm] using camInv_captureImage h
    | retake => simpa [camStep, hm] using camInv_retakeImage h
    | unmount => simpa [camStep, hm] using camInv_unmountCam h
  · simpa [camStep, hm] using h

theorem camInv_init : CamInv camInit := by
  refine ⟨?_, ?_, ?_, ?_, ?_⟩ <;> simp [camInit]

theorem camInv_foldl :
    ∀ (tr : List CamEvent) (s : CamState), CamInv s →
      CamInv (tr.foldl camStep s)
  | [], _, h => h
  | e :: tr, s, h => camInv_foldl tr (camStep s e) (camInv_camStep h e)

theorem camInv_run (tr : List CamEvent) : CamInv (camRun tr) :=
  camInv_foldl tr camInit camInv_init

theorem atMostOneActive_of_camInv {s : CamState} (h : CamInv s) :
    AtMostOneActive s := by
  intro j k hj hk hjn hkn
  have e1 := h.1 j hj hjn
  have e2 := h.1 k hk hkn
  rw [e1] at e2
  exact Option.some.inj e2

theorem allReleased_mark {s : CamState} {id : Nat}
    (h1 : ∀ j, j < s.acquired → j ∉ s.stopped → s.stream = some j)
    (hs : s.stream = some id) :
    ∀ j, j < s.acquired → j ∈ markStopped s.stopped id := by
  intro j hj
  by_contra hjn
  have hj1 : j ∉ s.stopped := fun e2 => hjn (mem_markStopped.mpr (Or.inr e2))
  have hX := h1 j hj hj1
  rw [hs] at hX
  injection hX with hX
  exact hjn (mem_markStopped.mpr (Or.inl hX.symm))

/-- C1: for both analyze entry points, a ScanRecord is inserted into the
record store if and only if the upload, the remote analysis and the
persistence stages all succeeded (on a call actually carrying an image and an
identity); and whenever the remote analysis function fails, the record store
is left unchanged and receives zero insert operations. The definition's
sequencing places the insert after the analysis match, so no record is written
before analysis completes. -/
theorem scanRecord_iff_all_stages_ok (selectedFile : Option PlantFile)
    (capturedImage : Option String) (user : Option String) (now : Nat)
    (env : AnalyzeEnv) (st : RemoteState) (a0 : Bool) :
    ((handleAnalyze selectedFile user now env st a0).state.records.length
        = st.records.length + 1 ↔
      (selectedFile.isSome = true ∧ user.isSome = true ∧
       env.uploadError = none ∧ analysisOk env = true ∧
       env.insertError = none)) ∧
    ((analyzeImage capturedImage user now env st a0).state.records.length
        = st.records.length + 1 ↔
      (capturedImage.isSome = true ∧ user.isSome = true ∧
       env.uploadError = none ∧ analysisOk env = true ∧
       env.insertError = none)) ∧
    (∀ e, env.analysis = Except.error e →
      (handleAnalyze selectedFile user now env st a0).state.records
          = st.records ∧
      (handleAnalyze selectedFile user now env st a0).inserts = 0 ∧
      (analyzeImage capturedImage user now env st a0).state.records
          = st.records ∧
      (analyzeImage capturedImage user now env st a0).inserts = 0) := by
  obtain ⟨ue, an, ie⟩ := env
  cases selectedFile <;> cases capturedImage <;> cases user <;>
    cases ue <;> cases an <;> cases ie <;>
      simp [handleAnalyze, analyzeImage, analysisOk]

theorem scanRecord_iff_all_stages_ok_witness :
    (handleAnalyze (some ⟨"leaf.jpg"⟩) (some "u1") 7
        { uploadError := none, analysis := Except.error ⟨some "boom"⟩,
          insertError := none } ⟨[], []⟩ false).state.records = [] ∧
    (handleAnalyze (some ⟨"leaf.jpg"⟩) (some "u1") 7
        { uploadError := none, analysis := Except.error ⟨some "boom"⟩,
          insertError := none } ⟨[], []⟩ false).inserts = 0 ∧
    (analyzeImage (some "data:image/jpeg;base64,xyz") (some "u1") 7
        { uploadError := none, analysis := Except.error ⟨some "boom"⟩,
          insertError := none } ⟨[], []⟩ false).state.records = [] ∧
    (analyzeImage (some "data:image/jpeg;base64,xyz") (some "u1") 7
        { uploadError := none, analysis := Except.error ⟨some "boom"⟩,
          insertError := none } ⟨[], []⟩ false).inserts = 0 :=
  (scanRecord_iff_all_stages_ok (some ⟨"leaf.jpg"⟩)
    (some "data:image/jpeg;base64,xyz") (some "u1") 7
    { uploadError := none, analysis := Except.error ⟨some "boom"⟩,
      insertError := none } ⟨[], []⟩ false).2.2 ⟨some "boom"⟩ rfl

/-- C2: on a successful analyze call with identity `uid` and a file whose
extension is `e`, exactly one object is stored — at path
`uid/<timestamp>.<e>` — and exactly one ScanRecord is inserted, carrying the
identity, the resolved public URL of that very object, and the analysis
result's disease, diagnosis, recommendations and confidence under
disease_detected, diagnosis, recommendations and confidence_score; the
camera entry point does the same with the fixed `jpg` extension. -/
theorem analyze_success_creates_one_ref_and_record
    (f : PlantFile) (img uid e : String) (now : Nat) (ad : AnalysisData)
    (env : AnalyzeEnv) (st : RemoteState) (a0 : Bool)
    (hext : fileExtOf f.name = e)
    (hup : env.uploadError = none) (han : env.analysis = Except.ok ad)
    (hins : env.insertError = none) :
    (handleAnalyze (some f) (some uid) now env st a0).state.storage
        = st.storage ++ [uid ++ "/" ++ toString now ++ "." ++ e] ∧
    (handleAnalyze (some f) (some uid) now env st a0).state.records
        = st.records ++
          [{ user_id := uid,
             image_url := getPublicUrl (uid ++ "/" ++ toString now ++ "." ++ e),
             disease_detected := ad.disease, diagnosis := ad.diagnosis,
             recommendations := ad.recommendations,
             confidence_score := ad.confidence }] ∧
    (handleAnalyze (some f) (some uid) now env st a0).outcome
        = AnalyzeOutcome.success ad ∧
    (analyzeImage (some img) (some uid) now env st a0).state.storage
        = st.storage ++ [uid ++ "/" ++ toString now ++ ".jpg"] ∧
    (analyzeImage (some img) (some uid) now env st a0).state.records
        = st.records ++
          [{ user_id := uid,
             image_url := getPublicUrl (uid ++ "/" ++ toString now ++ ".jpg"),
             disease_detected := ad.disease, diagnosis := ad.diagnosis,
             recommendations := ad.recommendations,
             confidence_score := ad.confidence }] := by
  subst hext
  simp [handleAnalyze, analyzeImage, hup, han, hins]

theorem analyze_success_creates_one_ref_and_record_witness :
    fileExtOf "leaf.jpg" = "jpg" ∧
    ((handleAnalyze (some ⟨"leaf.jpg"⟩) (some "u1") 7
        { uploadError := none,
          analysis := Except.ok ⟨some "blight", some "d", some "r", some 1⟩,
          insertError := none } ⟨[], []⟩ false).state.storage
        = [] ++ ["u1" ++ "/" ++ toString 7 ++ "." ++ "jpg"] ∧
     (handleAnalyze (some ⟨"leaf.jpg"⟩) (some "u1") 7
        { uploadError := none,
          analysis := Except.ok ⟨some "blight", some "d", some "r", some 1⟩,
          insertError := none } ⟨[], []⟩ false).state.records
        = [] ++
          [{ user_id := "u1",
             image_url := getPublicUrl ("u1" ++ "/" ++ toString 7 ++ "." ++ "jpg"),
             disease_detected := some "blight", diagnosis := some "d",
             recommendations := some "r", confidence_score := some 1 }] ∧
     (handleAnalyze (some ⟨"leaf.jpg"⟩) (some "u1") 7
        { uploadError := none,
          analysis := Except.ok ⟨some "blight", some "d", some "r", some 1⟩,
          insertError := none } ⟨[], []⟩ false).outcome
        = AnalyzeOutcome.success ⟨some "blight", some "d", some "r", some 1⟩ ∧
     (analyzeImage (some "data:image/jpeg;base64,xyz") (some "u1") 7
        { uploadError := none,
          analysis := Except.ok ⟨some "blight", some "d", some "r", some 1⟩,
          insertError := none } ⟨[], []⟩ false).state.storage
        = [] ++ ["u1" ++ "/" ++ toString 7 ++ ".jpg"] ∧
     (analyzeImage (some "data:image/jpeg;base64,xyz") (some "u1") 7
        { uploadError := none,
          analysis := Except.ok ⟨some "blight", some "d", some "r", some 1⟩,
          insertError := none } ⟨[], []⟩ false).state.records
        = [] ++
          [{ user_id := "u1",
             image_url := getPublicUrl ("u1" ++ "/" ++ toString 7 ++ ".jpg"),
             disease_detected := some "blight", diagnosis := some "d",
             recommendations := some "r", confidence_score := some 1 }]) :=
  ⟨by decide,
   analyze_success_creates_one_ref_and_record ⟨"leaf.jpg"⟩
     "data:image/jpeg;base64,xyz" "u1" "jpg" 7
     ⟨some "blight", some "d", some "r", some 1⟩
     { uploadError := none,
       analysis := Except.ok ⟨some "blight", some "d", some "r", some 1⟩,
       insertError := none } ⟨[], []⟩ false (by decide) rfl rfl rfl⟩

/-- C3 (counterexample): stage failures are not surfaced as distinct error
kinds, on either analyze entry point. An upload failure and an analysis
failure carrying the same message produce exactly the same observable outcome
— the single generic `AnalyzeOutcome.failure` with the error's message — so
the caller cannot distinguish the failed stage; a persistence failure yields
that same generic constructor. There is no UploadFailed / AnalysisFailed /
PersistFailed distinction anywhere in the code's observable behaviour. -/
theorem stage_failures_not_distinct_cex :
    (handleAnalyze (some ⟨"leaf.jpg"⟩) (some "u1") 7
        { uploadError := some ⟨some "boom"⟩,
          analysis := Except.error ⟨some "other"⟩, insertError := none }
        ⟨[], []⟩ false).outcome
      = (handleAnalyze (some ⟨"leaf.jpg"⟩) (some "u1") 7
          { uploadError := none, analysis := Except.error ⟨some "boom"⟩,
            insertError := none } ⟨[], []⟩ false).outcome ∧
    (handleAnalyze (some ⟨"leaf.jpg"⟩) (some "u1") 7
        { uploadError := some ⟨some "boom"⟩,
          analysis := Except.error ⟨some "other"⟩, insertError := none }
        ⟨[], []⟩ false).outcome = AnalyzeOutcome.failure "boom" ∧
    (handleAnalyze (some ⟨"leaf.jpg"⟩) (some "u1") 7
        { uploadError := none, analysis := Except.ok ⟨none, none, none, none⟩,
          insertError := some ⟨some "boom"⟩ } ⟨[], []⟩ false).outcome
      = AnalyzeOutcome.failure "boom" ∧
    (analyzeImage (some "data:image/jpeg;base64,xyz") (some "u1") 7
        { uploadError := some ⟨some "boom"⟩,
          analysis := Except.error ⟨some "other"⟩, insertError := none }
        ⟨[], []⟩ false).outcome
      = (analyzeImage (some "data:image/jpeg;base64,xyz") (some "u1") 7
          { uploadError := none, analysis := Except.error ⟨some "boom"⟩,
            insertError := none } ⟨[], []⟩ false).outcome ∧
    (analyzeImage (some "data:image/jpeg;base64,xyz") (some "u1") 7
        { uploadError := some ⟨some "boom"⟩,
          analysis := Except.error ⟨some "other"⟩, insertError := none }
        ⟨[], []⟩ false).outcome = AnalyzeOutcome.failure "boom" ∧
    (analyzeImage (some "data:image/jpeg;base64,xyz") (some "u1") 7
        { uploadError := none, analysis := Except.ok ⟨none, none, none, none⟩,
          insertError := some ⟨some "boom"⟩ } ⟨[], []⟩ false).outcome
      = AnalyzeOutcome.failure "boom" := by
  decide

/-- C3 (amended): for both analyze entry points, a failure of the upload,
analysis or persistence stage aborts the call and is surfaced to the caller as
the single generic failure outcome carrying the underlying error's message (or
the fallback text); in particular a persistence failure after a successful
upload and analysis is reported as this failure — never as success — but the
three stages are not distinguished by error kind. -/
theorem stage_failure_generic_and_never_success
    (f : PlantFile) (img uid : String) (now : Nat) (env : AnalyzeEnv)
    (st : RemoteState) (a0 : Bool) (e : JsError) (ad : AnalysisData) :
    (env.uploadError = some e →
      (handleAnalyze (some f) (some uid) now env st a0).outcome
        = AnalyzeOutcome.failure (errToastMsg e)) ∧
    (env.uploadError = none → env.analysis = Except.error e →
      (handleAnalyze (some f) (some uid) now env st a0).outcome
        = AnalyzeOutcome.failure (errToastMsg e)) ∧
    (env.uploadError = none → env.analysis = Except.ok ad →
      env.insertError = some e →
      (handleAnalyze (some f) (some uid) now env st a0).outcome
          = AnalyzeOutcome.failure (errToastMsg e) ∧
      ∀ x, (handleAnalyze (some f) (some uid) now env st a0).outcome
          ≠ AnalyzeOutcome.success x) ∧
    (env.uploadError = some e →
      (analyzeImage (some img) (some uid) now env st a0).outcome
        = AnalyzeOutcome.failure (errToastMsg e)) ∧
    (env.uploadError = none → env.analysis = Except.error e →
      (analyzeImage (some img) (some uid) now env st a0).outcome
        = AnalyzeOutcome.failure (errToastMsg e)) ∧
    (env.uploadError = none → env.analysis = Except.ok ad →
      env.insertError = some e →
      (analyzeImage (some img) (some uid) now env st a0).outcome
          = AnalyzeOutcome.failure (errToastMsg e) ∧
      ∀ x, (analyzeImage (some img) (some uid) now env st a0).outcome
          ≠ AnalyzeOutcome.success x) := by
  refine ⟨?_, ?_, ?_, ?_, ?_, ?_⟩ <;> intros <;>
    simp [handleAnalyze, analyzeImage, *]

theorem stage_failure_generic_and_never_success_witness :
    (handleAnalyze (some ⟨"leaf.jpg"⟩) (some "u1") 7
        { uploadError := none, analysis := Except.ok ⟨none, none, none, none⟩,
          insertError := some ⟨some "db down"⟩ } ⟨[], []⟩ false).outcome
        = AnalyzeOutcome.failure (errToastMsg ⟨some "db down"⟩) ∧
    (handleAnalyze (some ⟨"leaf.jpg"⟩) (some "u1") 7
        { uploadError := none, analysis := Except.ok ⟨none, none, none, none⟩,
          insertError := some ⟨some "db down"⟩ } ⟨[], []⟩ false).outcome
        ≠ AnalyzeOutcome.success ⟨none, none, none, none⟩ ∧
    (analyzeImage (some "data:image/jpeg;base64,xyz") (some "u1") 7
        { uploadError := none, analysis := Except.ok ⟨none, none, none, none⟩,
          insertError := some ⟨some "db down"⟩ } ⟨[], []⟩ false).outcome
        = AnalyzeOutcome.failure (errToastMsg ⟨some "db down"⟩) ∧
    (analyzeImage (some "data:image/jpeg;base64,xyz") (some "u1") 7
        { uploadError := none, analysis := Except.ok ⟨none, none, none, none⟩,
          insertError := some ⟨some "db down"⟩ } ⟨[], []⟩ false).outcome
        ≠ AnalyzeOutcome.success ⟨none, none, none, none⟩ := by
  have h := stage_failure_generic_and_never_success ⟨"leaf.jpg"⟩
    "data:image/jpeg;base64,xyz" "u1" 7
    { uploadError := none, analysis := Except.ok ⟨none, none, none, none⟩,
      insertError := some ⟨some "db down"⟩ } ⟨[], []⟩ false
    ⟨some "db down"⟩ ⟨none, none, none, none⟩
  exact ⟨(h.2.2.1 rfl rfl rfl).1,
         (h.2.2.1 rfl rfl rfl).2 ⟨none, none, none, none⟩,
         (h.2.2.2.2.2 rfl rfl rfl).1,
         (h.2.2.2.2.2 rfl rfl rfl).2 ⟨none, none, none, none⟩⟩

/-- C4: when the upload stage succeeded and the remote analysis function then
fails, the uploaded object is still in storage afterwards — appended and never
removed (neither pipeline contains any storage delete call) — and no record is
inserted; the upload is not rolled back. Holds for both entry points. -/
theorem upload_persists_on_analysis_failure
    (f : PlantFile) (img uid : String) (now : Nat) (env : AnalyzeEnv)
    (st : RemoteState) (a0 : Bool) (e : JsError)
    (hup : env.uploadError = none) (han : env.analysis = Except.error e) :
    (handleAnalyze (some f) (some uid) now env st a0).state.storage
        = st.storage ++
          [uid ++ "/" ++ toString now ++ "." ++ fileExtOf f.name] ∧
    (handleAnalyze (some f) (some uid) now env st a0).state.records
        = st.records ∧
    (analyzeImage (some img) (some uid) now env st a0).state.storage
        = st.storage ++ [uid ++ "/" ++ toString now ++ ".jpg"] ∧
    (analyzeImage (some img) (some uid) now env st a0).state.records
        = st.records := by
  simp [handleAnalyze, analyzeImage, hup, han]

theorem upload_persists_on_analysis_failure_witness :
    (handleAnalyze (some ⟨"leaf.jpg"⟩) (some "u1") 7
        { uploadError := none, analysis := Except.error ⟨some "boom"⟩,
          insertError := none } ⟨["old.jpg"], []⟩ false).state.storage
        = ["old.jpg"] ++
          ["u1" ++ "/" ++ toString 7 ++ "." ++ fileExtOf "leaf.jpg"] ∧
    (handleAnalyze (some ⟨"leaf.jpg"⟩) (some "u1") 7
        { uploadError := none, analysis := Except.error ⟨some "boom"⟩,
          insertError := none } ⟨["old.jpg"], []⟩ false).state.records = [] ∧
    (analyzeImage (some "data:image/jpeg;base64,xyz") (some "u1") 7
        { uploadError := none, analysis := Except.error ⟨some "boom"⟩,
          insertError := none } ⟨["old.jpg"], []⟩ false).state.storage
        = ["old.jpg"] ++ ["u1" ++ "/" ++ toString 7 ++ ".jpg"] ∧
    (analyzeImage (some "data:image/jpeg;base64,xyz") (some "u1") 7
        { uploadError := none, analysis := Except.error ⟨some "boom"⟩,
          insertError := none } ⟨["old.jpg"], []⟩ false).state.records
        = [] :=
  upload_persists_on_analysis_failure ⟨"leaf.jpg"⟩
    "data:image/jpeg;base64,xyz" "u1" 7
    { uploadError := none, analysis := Except.error ⟨some "boom"⟩,
      insertError := none } ⟨["old.jpg"], []⟩ false ⟨some "boom"⟩ rfl rfl

/-- C5 (counterexample): calling startCamera while already Capturing is
neither a no-op nor an error and performs a second device acquisition —
startCamera has no guard on the capturing state, so from the state after one
successful start (capturing), a second start raises the acquisition count
from 1 to 2 and changes the state (the held stream is replaced). -/
theorem start_while_capturing_second_acquisition_cex :
    (camRun [CamEvent.start true]).capturing = true ∧
    (camRun [CamEvent.start true]).acquired = 1 ∧
    (camRun [CamEvent.start true, CamEvent.start true]).acquired = 2 ∧
    camRun [CamEvent.start true, CamEvent.start true]
      ≠ camRun [CamEvent.start true] := by
  decide

/-- C5 (amended): startCamera does not guard on the Capturing state — calling
start() while Capturing performs a second device acquisition, replacing the
held stream; the replaced stream's tracks are stopped by the component's
stream-effect cleanup, so after the call at most one acquired stream remains
unreleased (and in every reachable state at most one acquired stream is
active). The no-reacquisition guarantee is enforced only by the UI, which
renders the Start Camera control only when not capturing. -/
theorem start_while_capturing_reacquires (tr : List CamEvent) (old : Nat)
    (hc : (camRun tr).capturing = true) (hm : (camRun tr).mounted = true)
    (hso : (camRun tr).stream = some old) :
    (camStep (camRun tr) (CamEvent.start true)).acquired
        = (camRun tr).acquired + 1 ∧
    AtMostOneActive (camStep (camRun tr) (CamEvent.start true)) ∧
    old ∈ (camStep (camRun tr) (CamEvent.start true)).stopped := by
  have hinv := camInv_run tr
  have hold : old < (camRun tr).acquired := hinv.2.1 old hso
  have hne : (camRun tr).acquired ≠ old := by omega
  have hpost : CamInv (camStep (camRun tr) (CamEvent.start true)) :=
    camInv_camStep hinv _
  have hstep : camStep (camRun tr) (CamEvent.start true)
      = startCamera (camRun tr) true := by
    simp [camStep, hm]
  refine ⟨?_, atMostOneActive_of_camInv hpost, ?_⟩
  · rw [hstep, startCamera_true_some hso hne]
  · rw [hstep, startCamera_true_some hso hne]
    exact mem_markStopped.mpr (Or.inl rfl)

theorem start_while_capturing_reacquires_witness :
    (camRun [CamEvent.start true]).capturing = true ∧
    (camRun [CamEvent.start true]).mounted = true ∧
    (camRun [CamEvent.start true]).stream = some 0 ∧
    ((camStep (camRun [CamEvent.start true]) (CamEvent.start true)).acquired
        = (camRun [CamEvent.start true]).acquired + 1 ∧
     AtMostOneActive
       (camStep (camRun [CamEvent.start true]) (CamEvent.start true)) ∧
     0 ∈ (camStep (camRun [CamEvent.start true])
            (CamEvent.start true)).stopped) :=
  ⟨by decide, by decide, by decide,
   start_while_capturing_reacquires [CamEvent.start true] 0
     (by decide) (by decide) (by decide)⟩

/-- C6: every transition out of the Capturing state — stopCamera,
captureImage, or teardown of the owning component — releases the held device
stream exactly once: its id enters the stopped set with multiplicity exactly
one (stopping the tracks of an already ended stream is a no-op, so there is no
double release), afterwards every acquired stream is released (no leak), and
for the stop and capture exits the capturing flag is cleared. -/
theorem exit_capturing_releases_stream_once (tr : List CamEvent) (id : Nat)
    (e : CamEvent) (hc : (camRun tr).capturing = true)
    (hm : (camRun tr).mounted = true) (hs : (camRun tr).stream = some id)
    (he : e = CamEvent.stop ∨ e = CamEvent.capture ∨ e = CamEvent.unmount) :
    ((camStep (camRun tr) e).stopped.count id = 1) ∧
    AllReleased (camStep (camRun tr) e) ∧
    (e ≠ CamEvent.unmount → (camStep (camRun tr) e).capturing = false) := by
  have hinv := camInv_run tr
  obtain ⟨i, hsi, hni⟩ := hinv.2.2.2.1 hc hm
  rw [hs] at hsi
  injection hsi with hii
  subst hii
  rcases he with rfl | rfl | rfl
  · have hstep : camStep (camRun tr) CamEvent.stop = stopCamera (camRun tr) := by
      simp [camStep, hm]
    rw [hstep, stopCamera_eq_some hs]
    exact ⟨count_markStopped_self hni, allReleased_mark hinv.1 hs, fun _ => rfl⟩
  · have hstep : camStep (camRun tr) CamEvent.capture
        = stopCamera { camRun tr with capturedImage := true } := by
      simp [camStep, hm, captureImage, hc]
    rw [hstep, stopCamera_eq_some
      (show ({ camRun tr with capturedImage := true }).stream = some id from hs)]
    exact ⟨count_markStopped_self hni, allReleased_mark hinv.1 hs, fun _ => rfl⟩
  · have hstep : camStep (camRun tr) CamEvent.unmount
        = { camRun tr with stopped := markStopped (camRun tr).stopped id,
                           mounted := false } := by
      simp [camStep, hm, unmountCam, stopTracks, hs]
    rw [hstep]
    exact ⟨count_markStopped_self hni, allReleased_mark hinv.1 hs,
      fun hne => absurd rfl hne⟩

theorem exit_capturing_releases_stream_once_witness :
    (camRun [CamEvent.start true]).capturing = true ∧
    (camRun [CamEvent.start true]).mounted = true ∧
    (camRun [CamEvent.start true]).stream = some 0 ∧
    ((camStep (camRun [CamEvent.start true]) CamEvent.stop).stopped.count 0
        = 1) ∧
    AllReleased (camStep (camRun [CamEvent.start true]) CamEvent.stop) ∧
    (camStep (camRun [CamEvent.start true]) CamEvent.stop).capturing = false :=
  ⟨by decide, by decide, by decide,
   (exit_capturing_releases_stream_once [CamEvent.start true] 0 CamEvent.stop
     (by decide) (by decide) (by decide) (Or.inl rfl)).1,
   (exit_capturing_releases_stream_once [CamEvent.start true] 0 CamEvent.stop
     (by decide) (by decide) (by decide) (Or.inl rfl)).2.1,
   (exit_capturing_releases_stream_once [CamEvent.start true] 0 CamEvent.stop
     (by decide) (by decide) (by decide) (Or.inl rfl)).2.2 (by decide)⟩

/-- C7 (counterexample): calling analyze with no image selected is a silent
early return, not a surfaced InvalidInput error: the run equals the pure no-op
run — no toast of any kind (the outcome is `noop`, not a `failure`), no stage
executed, state untouched. The outcome type of the embedded code has no
InvalidInput (or any error) constructor for this path at all. -/
theorem missing_input_silent_return_cex :
    handleAnalyze none (some "u1") 7
        { uploadError := none, analysis := Except.ok ⟨none, none, none, none⟩,
          insertError := none } ⟨[], []⟩ false
      = { outcome := AnalyzeOutcome.noop, state := ⟨[], []⟩,
          analyzing := false, uploads := 0, invokes := 0, inserts := 0 } ∧
    AnalyzeOutcome.noop ≠ AnalyzeOutcome.failure fallbackMsg := by
  decide

/-- C7 (amended): calling analyze with no image or no identity returns
immediately, before any of the upload, analysis or persistence stages run
(zero operations issued, remote state untouched, analyzing flag untouched) —
but silently: the observable outcome is the no-op, and no distinct
InvalidInput error is surfaced to the caller. -/
theorem missing_input_noop_before_stages (selectedFile : Option PlantFile)
    (capturedImage : Option String) (user : Option String) (now : Nat)
    (env : AnalyzeEnv) (st : RemoteState) (a0 : Bool)
    (h : (selectedFile = none ∧ capturedImage = none) ∨ user = none) :
    handleAnalyze selectedFile user now env st a0
      = { outcome := AnalyzeOutcome.noop, state := st, analyzing := a0,
          uploads := 0, invokes := 0, inserts := 0 } ∧
    analyzeImage capturedImage user now env st a0
      = { outcome := AnalyzeOutcome.noop, state := st, analyzing := a0,
          uploads := 0, invokes := 0, inserts := 0 } := by
  rcases h with ⟨h1, h2⟩ | h
  · subst h1
    subst h2
    cases user <;> simp [handleAnalyze, analyzeImage]
  · subst h
    cases selectedFile <;> cases capturedImage <;>
      simp [handleAnalyze, analyzeImage]

theorem missing_input_noop_before_stages_witness :
    handleAnalyze none (some "u1") 7
        { uploadError := none, analysis := Except.ok ⟨none, none, none, none⟩,
          insertError := none } ⟨[], []⟩ false
      = { outcome := AnalyzeOutcome.noop, state := ⟨[], []⟩,
          analyzing := false, uploads := 0, invokes := 0, inserts := 0 } ∧
    analyzeImage none (some "u1") 7
        { uploadError := none, analysis := Except.ok ⟨none, none, none, none⟩,
          insertError := none } ⟨[], []⟩ false
      = { outcome := AnalyzeOutcome.noop, state := ⟨[], []⟩,
          analyzing := false, uploads := 0, invokes := 0, inserts := 0 } :=
  missing_input_noop_before_stages none none (some "u1") 7
    { uploadError := none, analysis := Except.ok ⟨none, none, none, none⟩,
      insertError := none } ⟨[], []⟩ false (Or.inl ⟨rfl, rfl⟩)

/-- C8 (counterexample): a confidence value outside [0,1] is neither rejected
nor clamped: an analysis result with confidence 2 is stored verbatim in the
ScanRecord's confidence_score, and the rendering layer displays
round(2 * 100) = 200 percent — above the 100 percent that the upper bound 1
would allow. -/
theorem confidence_not_clamped_cex :
    (handleAnalyze (some ⟨"leaf.jpg"⟩) (some "u1") 7
        { uploadError := none,
          analysis := Except.ok ⟨some "blight", none, none, some 2⟩,
          insertError := none } ⟨[], []⟩ false).state.records
      = [{ user_id := "u1", image_url := getPublicUrl "u1/7.jpg",
           disease_detected := some "blight", diagnosis := none,
           recommendations := none, confidence_score := some 2 }] ∧
    (1 : Rat) < 2 ∧
    renderedConfidencePercent (some 2) = some 200 := by
  refine ⟨by decide, by norm_num, ?_⟩
  simp only [renderedConfidencePercent]
  norm_num [jsRound, ratFloor]
  decide

/-- C8 (amended): whenever the analysis result carries a confidence value, the
value is stored in the inserted ScanRecord exactly as received — with no range
validation or clamping — and the rendering shows round(100 times the value)
percent whenever the value is truthy (non-zero), again without any range
check; values outside [0,1] are stored and displayed unchanged. -/
theorem confidence_stored_and_rendered_unvalidated
    (f : PlantFile) (uid : String) (now : Nat) (env : AnalyzeEnv)
    (st : RemoteState) (a0 : Bool) (ad : AnalysisData) (v : Rat)
    (hup : env.uploadError = none) (han : env.analysis = Except.ok ad)
    (hins : env.insertError = none) (hc : ad.confidence = some v) :
    (handleAnalyze (some f) (some uid) now env st a0).state.records
      = st.records ++
        [{ user_id := uid,
           image_url := getPublicUrl
             (uid ++ "/" ++ toString now ++ "." ++ fileExtOf f.name),
           disease_detected := ad.disease, diagnosis := ad.diagnosis,
           recommendations := ad.recommendations,
           confidence_score := some v }] ∧
    renderedConfidencePercent ad.confidence
      = (if v = 0 then none else some (jsRound (v * 100))) := by
  simp [handleAnalyze, renderedConfidencePercent, hup, han, hins, hc]

theorem confidence_stored_and_rendered_unvalidated_witness :
    (handleAnalyze (some ⟨"leaf.jpg"⟩) (some "u1") 7
        { uploadError := none,
          analysis := Except.ok ⟨some "blight", none, none, some 2⟩,
          insertError := none } ⟨[], []⟩ false).state.records
      = [] ++
        [{ user_id := "u1",
           image_url := getPublicUrl
             ("u1" ++ "/" ++ toString 7 ++ "." ++ fileExtOf "leaf.jpg"),
           disease_detected := some "blight", diagnosis := none,
           recommendations := none, confidence_score := some 2 }] ∧
    renderedConfidencePercent (some 2)
      = (if (2 : Rat) = 0 then none else some (jsRound (2 * 100))) :=
  confidence_stored_and_rendered_unvalidated ⟨"leaf.jpg"⟩ "u1" 7
    { uploadError := none,
      analysis := Except.ok ⟨some "blight", none, none, some 2⟩,
      insertError := none } ⟨[], []⟩ false ⟨some "blight", none, none, some 2⟩ 2
    rfl rfl rfl rfl

/-- C9 (counterexample): a ScanRecord can outlive its stored image. deleteScan
removes the image from storage first (ignoring the storage result) and only
then deletes the record; when the database delete fails, the record row is
kept while its image has already been removed — violating the claimed
never-outlives invariant for a partially failing deletion attempt. -/
theorem record_outlives_image_cex :
    deleteScan "id1" (getPublicUrl "u1/1.jpg")
        { removeError := none, dbError := some ⟨some "db down"⟩ }
        ["u1/1.jpg"] [⟨"id1", getPublicUrl "u1/1.jpg"⟩]
      = { storage := [], rows := [⟨"id1", getPublicUrl "u1/1.jpg"⟩],
          success := false, removes := 1 } := by
  decide

/-- C9 (amended): deleteScan attempts the storage removal first — silently
ignoring a storage failure — and the record deletion second: when both
succeed, the image is released together with the record; when the database
delete fails, the record rows are kept (while the image may already have been
removed, as the counterexample shows); when the storage removal fails, the
record is still deleted and the orphaned image is left in storage. -/
theorem deleteScan_removes_image_then_record
    (scanId imageUrl fp : String) (env : DeleteEnv)
    (storage : List String) (rows : List ScanRow)
    (hfp : ((jsSplit imageUrl "/plant-images/")[1]?).getD "" = fp)
    (hne : fp ≠ "") :
    (env.removeError = none → env.dbError = none →
      deleteScan scanId imageUrl env storage rows
        = { storage := storage.filter (fun p => p ≠ fp),
            rows := rows.filter (fun r => r.id ≠ scanId),
            success := true, removes := 1 }) ∧
    (∀ e, env.dbError = some e →
      (deleteScan scanId imageUrl env storage rows).rows = rows ∧
      (deleteScan scanId imageUrl env storage rows).success = false) ∧
    (∀ e, env.removeError = some e →
      (deleteScan scanId imageUrl env storage rows).storage = storage ∧
      (env.dbError = none →
        (deleteScan scanId imageUrl env storage rows).rows
            = rows.filter (fun r => r.id ≠ scanId) ∧
        (deleteScan scanId imageUrl env storage rows).success = true)) := by
  obtain ⟨re, de⟩ := env
  refine ⟨?_, ?_, ?_⟩
  · intro h1 h2
    subst h1
    subst h2
    simp [deleteScan, hfp, hne]
  · intro e he
    subst he
    simp [deleteScan, hfp, hne]
  · intro e he
    subst he
    cases de <;> simp [deleteScan, hfp, hne]

theorem deleteScan_removes_image_then_record_witness :
    ((jsSplit (getPublicUrl "u1/1.jpg") "/plant-images/")[1]?).getD ""
        = "u1/1.jpg" ∧
    (deleteScan "id1" (getPublicUrl "u1/1.jpg")
        { removeError := none, dbError := none }
        ["u1/1.jpg"] [⟨"id1", getPublicUrl "u1/1.jpg"⟩]
      = { storage := ["u1/1.jpg"].filter (fun p => p ≠ "u1/1.jpg"),
          rows := [(⟨"id1", getPublicUrl "u1/1.jpg"⟩ : ScanRow)].filter
            (fun r => r.id ≠ "id1"),
          success := true, removes := 1 }) ∧
    (deleteScan "id1" (getPublicUrl "u1/1.jpg")
        { removeError := some ⟨some "net"⟩, dbError := none }
        ["u1/1.jpg"] [⟨"id1", getPublicUrl "u1/1.jpg"⟩]).storage
      = ["u1/1.jpg"] ∧
    (deleteScan "id1" (getPublicUrl "u1/1.jpg")
        { removeError := some ⟨some "net"⟩, dbError := none }
        ["u1/1.jpg"] [⟨"id1", getPublicUrl "u1/1.jpg"⟩]).rows
      = [(⟨"id1", getPublicUrl "u1/1.jpg"⟩ : ScanRow)].filter
          (fun r => r.id ≠ "id1") ∧
    (deleteScan "id1" (getPublicUrl "u1/1.jpg")
        { removeError := some ⟨some "net"⟩, dbError := none }
        ["u1/1.jpg"] [⟨"id1", getPublicUrl "u1/1.jpg"⟩]).success = true := by
  have hok := deleteScan_removes_image_then_record "id1"
    (getPublicUrl "u1/1.jpg") "u1/1.jpg"
    { removeError := none, dbError := none }
    ["u1/1.jpg"] [⟨"id1", getPublicUrl "u1/1.jpg"⟩] (by decide) (by decide)
  have hrf := deleteScan_removes_image_then_record "id1"
    (getPublicUrl "u1/1.jpg") "u1/1.jpg"
    { removeError := some ⟨some "net"⟩, dbError := none }
    ["u1/1.jpg"] [⟨"id1", getPublicUrl "u1/1.jpg"⟩] (by decide) (by decide)
  exact ⟨by decide, hok.1 rfl rfl, (hrf.2.2 ⟨some "net"⟩ rfl).1,
         ((hrf.2.2 ⟨some "net"⟩ rfl).2 rfl).1, ((hrf.2.2 ⟨some "net"⟩ rfl).2 rfl).2⟩

/-- C10: whenever an analyze invocation actually starts the pipeline (an image
and an identity are present), the analyzing flag is false after the invocation
completes — the finally block runs on the success path and on every stage
failure alike — so the pipeline can always be re-invoked; on the silent
precondition return the flag is simply left untouched (it was never set). -/
theorem analyzing_flag_reset_on_completion (selectedFile : Option PlantFile)
    (capturedImage : Option String) (user : Option String) (now : Nat)
    (env : AnalyzeEnv) (st : RemoteState) (a0 : Bool) :
    (selectedFile.isSome = true → user.isSome = true →
      (handleAnalyze selectedFile user now env st a0).analyzing = false) ∧
    (capturedImage.isSome = true → user.isSome = true →
      (analyzeImage capturedImage user now env st a0).analyzing = false) ∧
    (user = none →
      (handleAnalyze selectedFile user now env st a0).analyzing = a0 ∧
      (analyzeImage capturedImage user now env st a0).analyzing = a0) := by
  obtain ⟨ue, an, ie⟩ := env
  cases selectedFile <;> cases capturedImage <;> cases user <;>
    cases ue <;> cases an <;> cases ie <;>
      simp [handleAnalyze, analyzeImage]

theorem analyzing_flag_reset_on_completion_witness :
    (handleAnalyze (some ⟨"leaf.jpg"⟩) (some "u1") 7
        { uploadError := some ⟨none⟩, analysis := Except.error ⟨none⟩,
          insertError := none } ⟨[], []⟩ false).analyzing = false ∧
    (analyzeImage (some "data:image/jpeg;base64,xyz") (some "u1") 7
        { uploadError := some ⟨none⟩, analysis := Except.error ⟨none⟩,
          insertError := none } ⟨[], []⟩ false).analyzing = false :=
  ⟨(analyzing_flag_reset_on_completion (some ⟨"leaf.jpg"⟩)
      (some "data:image/jpeg;base64,xyz") (some "u1") 7
      { uploadError := some ⟨none⟩, analysis := Except.error ⟨none⟩,
        insertError := none } ⟨[], []⟩ false).1 rfl rfl,
   (analyzing_flag_reset_on_completion (some ⟨"leaf.jpg"⟩)
      (some "data:image/jpeg;base64,xyz") (some "u1") 7
      { uploadError := some ⟨none⟩, analysis := Except.error ⟨none⟩,
        insertError := none } ⟨[], []⟩ false).2.1 rfl rfl⟩
